import Mathlib

set_option maxRecDepth 100000

/-!
Shallow embedding of the vlc-control command relay (src/main.rs).

Bytes and Unicode code points are modelled as `Nat`.  External effects
(process spawning, backend TCP exchanges, retry sleeps) are modelled by an
explicit environment `Env` supplying the outcome of each external operation,
and every function additionally returns the list of effects it performed, in
order.  Fallible Rust code returning `anyhow::Result` is modelled with
`Except`.
-/

/-- Code points of a Lean string; for ASCII strings this equals its bytes. -/
def strCodes (s : String) : List Nat := s.toList.map Char.toNat

/-- `MAX_COMMAND_SIZE` from main.rs line 58. -/
def MAX_COMMAND_SIZE : Nat := 128

/-- `ALLOWED_COMMANDS` from main.rs lines 59-62. -/
def ALLOWED_COMMANDS : List String :=
  ["play", "pause", "stop", "next", "prev", "playlist", "frame",
   "pi_restart_vlc", "pi_shutdown", "pi_reboot"]

/-- Rust `char::is_whitespace`: the Unicode White_Space property. -/
def isRustWhitespace (c : Nat) : Bool :=
  (0x09 ≤ c && c ≤ 0x0D) || c == 0x20 || c == 0x85 || c == 0xA0 ||
  c == 0x1680 || (0x2000 ≤ c && c ≤ 0x200A) || c == 0x2028 || c == 0x2029 ||
  c == 0x202F || c == 0x205F || c == 0x3000

/-- Rust `str::trim`: drop leading and trailing whitespace characters. -/
def rustTrim (cs : List Nat) : List Nat :=
  ((cs.dropWhile isRustWhitespace).reverse.dropWhile isRustWhitespace).reverse

/-- A UTF-8 continuation byte, `0x80..=0xBF`. -/
def isCont (b : Nat) : Bool := 0x80 ≤ b && b ≤ 0xBF

/-- Rust `std::str::from_utf8` (main.rs line 173): strict UTF-8 validation and
decoding of a byte list into a code-point list; `none` on invalid input
(overlong forms, surrogates and out-of-range values all rejected). -/
def utf8Decode : List Nat → Option (List Nat)
  | [] => some []
  | b :: rest =>
    if b ≤ 0x7F then
      (utf8Decode rest).map (fun cs => b :: cs)
    else if 0xC2 ≤ b && b ≤ 0xDF then
      match rest with
      | b1 :: rest1 =>
        if isCont b1 then
          (utf8Decode rest1).map (fun cs => ((b - 0xC0) * 0x40 + (b1 - 0x80)) :: cs)
        else none
      | [] => none
    else if 0xE0 ≤ b && b ≤ 0xEF then
      match rest with
      | b1 :: b2 :: rest2 =>
        let okB1 :=
          if b == 0xE0 then 0xA0 ≤ b1 && b1 ≤ 0xBF
          else if b == 0xED then 0x80 ≤ b1 && b1 ≤ 0x9F
          else isCont b1
        if okB1 && isCont b2 then
          (utf8Decode rest2).map (fun cs =>
            ((b - 0xE0) * 0x1000 + (b1 - 0x80) * 0x40 + (b2 - 0x80)) :: cs)
        else none
      | _ => none
    else if 0xF0 ≤ b && b ≤ 0xF4 then
      match rest with
      | b1 :: b2 :: b3 :: rest3 =>
        let okB1 :=
          if b == 0xF0 then 0x90 ≤ b1 && b1 ≤ 0xBF
          else if b == 0xF4 then 0x80 ≤ b1 && b1 ≤ 0x8F
          else isCont b1
        if okB1 && isCont b2 && isCont b3 then
          (utf8Decode rest3).map (fun cs =>
            ((b - 0xF0) * 0x40000 + (b1 - 0x80) * 0x1000 +
             (b2 - 0x80) * 0x40 + (b3 - 0x80)) :: cs)
        else none
      | _ => none
    else none

/-- `command.starts_with("pi_")` on the trimmed code points (main.rs line 175). -/
def piPrefixed (cmd : List Nat) : Bool := (strCodes "pi_").isPrefixOf cmd

/-- `ALLOWED_COMMANDS.contains(&command)` (main.rs line 175). -/
def allowedContains (cmd : List Nat) : Bool :=
  (ALLOWED_COMMANDS.map strCodes).contains cmd

/-- One step of the prompt-delimited exchange performed by `forward_to_vlc`
on a backend connection (connect, `read_until` a delimiter, `write_all`). -/
inductive ExchangeEvent where
  | connect
  | readUntil (delim : Nat) (bytes : List Nat)
  | write (bytes : List Nat)
deriving Repr, DecidableEq

instance {ε α : Type} [DecidableEq ε] [DecidableEq α] : DecidableEq (Except ε α) :=
  fun x y =>
    match x, y with
    | .ok a, .ok b => if h : a = b then .isTrue (by rw [h]) else .isFalse (by simp [h])
    | .error a, .error b => if h : a = b then .isTrue (by rw [h]) else .isFalse (by simp [h])
    | .ok _, .error _ => .isFalse (by simp)
    | .error _, .ok _ => .isFalse (by simp)

/-- Outcome of the externally-visible operations of one `forward_to_vlc`
attempt: the `TcpStream::connect` result, then the two `read_until(b'>', ..)`
results (the bytes read) and the `write_all` result. -/
structure BackendBehavior where
  connect : Except String Unit
  promptRead : Except String (List Nat)
  writeRes : Except String Unit
  responseRead : Except String (List Nat)
deriving Repr, DecidableEq

/-- `forward_to_vlc` (main.rs lines 247-273): open a brand-new connection,
read until the prompt byte `>` (0x3E), write the command bytes verbatim, read
until the next `>`; the response bytes are not interpreted.  Returns the
Rust function's `Result<()>` together with the completed operations. -/
def forward_to_vlc (command : List Nat) (b : BackendBehavior) :
    Except String Unit × List ExchangeEvent :=
  match b.connect with
  | .error e => (.error e, [])
  | .ok _ =>
    match b.promptRead with
    | .error e => (.error e, [.connect])
    | .ok prompt =>
      match b.writeRes with
      | .error e => (.error e, [.connect, .readUntil 0x3E prompt])
      | .ok _ =>
        match b.responseRead with
        | .error e => (.error e, [.connect, .readUntil 0x3E prompt, .write command])
        | .ok resp =>
          (.ok (), [.connect, .readUntil 0x3E prompt, .write command,
                    .readUntil 0x3E resp])

/-- One event of the retry wrapper: a `forward_to_vlc` attempt (numbered from
1, with the operations that attempt performed) or a `tokio::time::sleep` of
the given number of milliseconds. -/
inductive RetryEvent where
  | attempt (n : Nat) (evs : List ExchangeEvent)
  | sleep (ms : Nat)
deriving Repr, DecidableEq

/-- The `for attempt in 1..=max_retries` loop of `forward_to_vlc_with_retry`
(main.rs lines 224-243).  `remaining + 1` is the number of loop iterations
still to run, so `remaining > 0` is exactly Rust's `attempt < max_retries`;
the fuel-exhausted case models the loop falling through to `unreachable!()`
(never reached when started with positive fuel covering all attempts). -/
def retryLoop (command : List Nat) (beh : Nat → BackendBehavior) :
    Nat → Nat → Nat → Except String Unit × List RetryEvent
  | 0, _, _ => (.error "unreachable", [])
  | remaining + 1, attempt, delayMs =>
    let r := forward_to_vlc command (beh attempt)
    match r.1 with
    | .ok v => (.ok v, [.attempt attempt r.2])
    | .error e =>
      if remaining > 0 then
        let rest := retryLoop command beh remaining (attempt + 1) (delayMs * 2)
        (rest.1, .attempt attempt r.2 :: .sleep delayMs :: rest.2)
      else (.error e, [.attempt attempt r.2])

/-- `forward_to_vlc_with_retry` (main.rs lines 220-244): `max_retries = 3`,
initial `retry_delay = 100` ms, delay doubled after each failed attempt.
`beh n` gives the backend's behaviour on the n-th connection attempt. -/
def forward_to_vlc_with_retry (command : List Nat) (beh : Nat → BackendBehavior) :
    Except String Unit × List RetryEvent :=
  retryLoop command beh 3 1 100

/-- The distinct failure conditions of `process_command`'s `Result<()>`
(in Rust all are `anyhow::Error`, distinguished here by constructor). -/
inductive DispatchError where
  | sizeExceeded (len : Nat)
  | invalidEncoding
  | unauthorized (cmd : List Nat)
  | localSpawnError (msg : String)
  | backendUnreachable (msg : String)
deriving Repr, DecidableEq

/-- An externally visible effect of one dispatch: an external process
invocation (`Command::new(prog).args(args).status()`), or the backend
forwarding activity of `forward_to_vlc_with_retry`. -/
inductive Effect where
  | spawned (prog : String) (args : List String)
  | forwarded (trace : List RetryEvent)
deriving Repr, DecidableEq

/-- The environment: outcome of each external operation.  `spawn prog args`
is the result of `.status()` — `.error` when the process could not start
(Rust `io::Error`, propagated by `?`), `.ok code` when it ran and exited with
the given status code.  `backend n` is the backend's behaviour on the n-th
forwarding attempt of a dispatch. -/
structure Env where
  spawn : String → List String → Except String Int
  backend : Nat → BackendBehavior

/-- One arm of `process_command`'s `match` for an allow-listed privileged
command (main.rs lines 181-209): run the external process, wait for its exit
status, log success or failure, and continue; only a spawn failure (the `?`
on `.status()`) is propagated. -/
def runLocal (env : Env) (prog : String) (args : List String) :
    Except DispatchError Unit × List Effect :=
  match env.spawn prog args with
  | .error e => (.error (.localSpawnError e), [.spawned prog args])
  | .ok _exitCode => (.ok (), [.spawned prog args])

/-- `process_command` (main.rs lines 167-217): size check, UTF-8 decode,
trim, `pi_` allow-list check, then either an allow-listed local action or
forwarding of the original bytes to the backend. -/
def process_command (data : List Nat) (env : Env) :
    Except DispatchError Unit × List Effect :=
  if data.length > MAX_COMMAND_SIZE then
    (.error (.sizeExceeded data.length), [])
  else
    match utf8Decode data with
    | none => (.error .invalidEncoding, [])
    | some chars =>
      let command := rustTrim chars
      if piPrefixed command && !allowedContains command then
        (.error (.unauthorized command), [])
      else if command = strCodes "pi_restart_vlc" then
        runLocal env "systemctl" ["--user", "restart", "vlc-loader.service"]
      else if command = strCodes "pi_shutdown" then
        runLocal env "sudo" ["shutdown", "-h", "now"]
      else if command = strCodes "pi_reboot" then
        runLocal env "sudo" ["shutdown", "-r", "now"]
      else
        let r := forward_to_vlc_with_retry data env.backend
        match r.1 with
        | .ok _ => (.ok (), [.forwarded r.2])
        | .error e => (.error (.backendUnreachable e), [.forwarded r.2])

/-- How `handle_tcp_connection`'s per-line handling can fail: the `?` on
`read_line` (which errors when the incoming bytes are not valid UTF-8), or
the `?` on `process_command` (main.rs lines 140-143). -/
inductive ConnError where
  | readLineFailed
  | dispatch (e : DispatchError)
deriving Repr, DecidableEq

/-- Handling of one line inside `handle_tcp_connection`'s loop (main.rs
lines 140-145): `read_line` has already fixed the line's bytes; it fails on
invalid UTF-8, otherwise the full line (terminator included) goes to
`process_command` and the dispatch error, if any, is propagated by `?`. -/
def tcp_dispatch_line (l : List Nat) (env : Env) :
    Except ConnError Unit × List Effect :=
  if (utf8Decode l).isNone then (.error .readLineFailed, [])
  else
    match process_command l env with
    | (.ok _, effs) => (.ok (), effs)
    | (.error e, effs) => (.error (.dispatch e), effs)

/-- The `while read_line != 0` loop of `handle_tcp_connection`: lines are
handled in order; the first failing line ends the loop with its error (the
`?` on `process_command`), and end-of-stream ends it cleanly. -/
def handle_tcp_lines : List (List Nat) → Env → Except ConnError Unit × List Effect
  | [], _ => (.ok (), [])
  | l :: rest, env =>
    match tcp_dispatch_line l env with
    | (.ok _, effs) =>
      let r := handle_tcp_lines rest env
      (r.1, effs ++ r.2)
    | (.error e, effs) => (.error e, effs)

/-- `read_line` chunking: split a connection's incoming bytes into lines,
each including its `\n` (0x0A) terminator; a final unterminated chunk is
returned as read at end-of-stream. -/
def splitLinesAux : List Nat → List Nat → List (List Nat)
  | [], acc => if acc = [] then [] else [acc.reverse]
  | b :: rest, acc =>
    if b = 10 then (acc.reverse ++ [10]) :: splitLinesAux rest []
    else splitLinesAux rest (b :: acc)

/-- Split incoming stream bytes into `read_line` units. -/
def splitLines (bs : List Nat) : List (List Nat) := splitLinesAux bs []

/-- `handle_tcp_connection` (main.rs lines 131-150) on a connection whose
incoming bytes are `input`. -/
def handle_tcp_connection (input : List Nat) (env : Env) :
    Except ConnError Unit × List Effect :=
  handle_tcp_lines (splitLines input) env

/-- Handling of one datagram inside `run_udp_server`'s loop (main.rs lines
159-162): `recv_from` reads at most 1024 bytes into the buffer (a longer
datagram is truncated) and the received bytes go to `process_command`. -/
def udp_dispatch_datagram (d : List Nat) (env : Env) :
    Except DispatchError Unit × List Effect :=
  process_command (d.take 1024) env

/-- The `loop` of `run_udp_server` (main.rs lines 153-164) over a finite
sequence of incoming datagrams: datagrams are handled in order, and the
first failing dispatch ends the loop with its error (the `?` on
`process_command`); `.ok` means the listener is still alive awaiting more. -/
def run_udp_server : List (List Nat) → Env → Except DispatchError Unit × List Effect
  | [], _ => (.ok (), [])
  | d :: rest, env =>
    match udp_dispatch_datagram d env with
    | (.ok _, effs) =>
      let r := run_udp_server rest env
      (r.1, effs ++ r.2)
    | (.error e, effs) => (.error e, effs)

/-- A backend that behaves normally: accepts the connection, sends its `>`
prompt, accepts the write, and answers `OK>`. -/
def okBackend : BackendBehavior :=
  { connect := .ok (), promptRead := .ok [0x3E], writeRes := .ok (),
    responseRead := .ok (strCodes "OK>") }

/-- A backend whose connection attempt is refused. -/
def downBackend : BackendBehavior :=
  { connect := .error "Connection refused (os error 111)",
    promptRead := .ok [], writeRes := .ok (), responseRead := .ok [] }

/-- Environment where every external process starts and exits 0 and the
backend behaves normally on every attempt. -/
def envOk : Env :=
  { spawn := fun _ _ => .ok 0, backend := fun _ => okBackend }

/-- Environment where the backend refuses every connection attempt. -/
def envDown : Env :=
  { spawn := fun _ _ => .ok 0, backend := fun _ => downBackend }

/-- Environment where external processes cannot be started at all
(`Command::status()` returns an `io::Error`). -/
def envSpawnFail : Env :=
  { spawn := fun _ _ => .error "No such file or directory (os error 2)",
    backend := fun _ => okBackend }

/-- Per-attempt backend behaviour: connection refused on attempts 1 and 2,
normal service from attempt 3 on. -/
def behFlaky : Nat → BackendBehavior :=
  fun n => if n ≤ 2 then downBackend else okBackend

/-- Is a dispatch result one of the three up-front rejections (size,
encoding, authorization)? -/
def isRejection : Except DispatchError Unit → Bool
  | .error (.sizeExceeded _) => true
  | .error .invalidEncoding => true
  | .error (.unauthorized _) => true
  | _ => false

/-- Is an `Except` result a success? -/
def exOk {ε α : Type} : Except ε α → Bool
  | .ok _ => true
  | .error _ => false

/-- The attempt numbers recorded in a retry trace, in order. -/
def attemptNums (tr : List RetryEvent) : List Nat :=
  tr.filterMap fun e => match e with | .attempt n _ => some n | .sleep _ => none

/-- The sleep durations (ms) recorded in a retry trace, in order. -/
def sleepsMs (tr : List RetryEvent) : List Nat :=
  tr.filterMap fun e => match e with | .attempt _ _ => none | .sleep ms => some ms

/-- An oversized input is rejected with `sizeExceeded` and no effect,
whatever the environment and the remaining bytes. -/
theorem process_command_oversized (data : List Nat) (env : Env)
    (h : data.length > MAX_COMMAND_SIZE) :
    process_command data env = (.error (.sizeExceeded data.length), []) := by
  unfold process_command
  rw [if_pos h]

/-- C3: For every input whose raw byte length exceeds 128 bytes, dispatch
fails with a SizeExceeded condition before any other processing: no encoding
check, no classification, no backend connection, and no local action occurs
(the result is the size rejection and the effect list is empty, for every
environment and even for undecodable bytes). -/
theorem C3_oversized_rejected_before_anything (data : List Nat) (env : Env)
    (h : data.length > 128) :
    process_command data env = (.error (.sizeExceeded data.length), []) :=
  process_command_oversized data env h

/-- Witness for C3 at a concrete input: 129 bytes of `0xFF` (not even valid
UTF-8) are rejected as oversized with no effect. -/
theorem C3_oversized_witness :
    process_command (List.replicate 129 0xFF) envOk =
      (.error (.sizeExceeded 129), []) :=
  C3_oversized_rejected_before_anything (List.replicate 129 0xFF) envOk (by decide)

/-- C2: For every input within the size limit whose trimmed text begins with
`pi_` and is not a member of the allow-list, dispatch fails with an
Unauthorized condition and the effect list is empty: no external process is
spawned and no backend connection is opened. -/
theorem C2_unauthorized_rejected (data : List Nat) (env : Env) (chars : List Nat)
    (hlen : data.length ≤ MAX_COMMAND_SIZE)
    (hdec : utf8Decode data = some chars)
    (hpi : piPrefixed (rustTrim chars) = true)
    (hallow : allowedContains (rustTrim chars) = false) :
    process_command data env = (.error (.unauthorized (rustTrim chars)), []) := by
  unfold process_command
  rw [if_neg (by omega), hdec]
  simp [hpi, hallow]

/-- Witness for C2 at the spec's own example `pi_format_disk`. -/
theorem C2_unauthorized_witness :
    process_command (strCodes "pi_format_disk") envOk =
      (.error (.unauthorized (rustTrim (strCodes "pi_format_disk"))), []) :=
  C2_unauthorized_rejected (strCodes "pi_format_disk") envOk
    (strCodes "pi_format_disk") (by decide) (by decide) (by decide) (by decide)

/-- C4 counterexample: for the allow-listed privileged command `pi_shutdown`,
when the external operation cannot start at all (`Command::status()` returns
an `io::Error`), the `?` on `.status()` propagates the failure out of
`process_command` — dispatch does NOT complete successfully, contradicting
the claim that such a failure is recorded only in logs. -/
theorem C4_spawn_error_counterexample :
    process_command (strCodes "pi_shutdown") envSpawnFail =
      (.error (.localSpawnError "No such file or directory (os error 2)"),
       [.spawned "sudo" ["shutdown", "-h", "now"]]) := by
  rfl

/-- C4 (amended): for every allow-listed privileged command, when the
external operation starts, dispatch completes successfully whatever the exit
status (a non-zero status is recorded only in logs and never propagated);
only a failure to start the process at all is propagated as a dispatch
failure. -/
theorem C4_local_action_failure_logged_only (env : Env)
    (h1 : ∃ c, env.spawn "systemctl" ["--user", "restart", "vlc-loader.service"] = .ok c)
    (h2 : ∃ c, env.spawn "sudo" ["shutdown", "-h", "now"] = .ok c)
    (h3 : ∃ c, env.spawn "sudo" ["shutdown", "-r", "now"] = .ok c) :
    process_command (strCodes "pi_restart_vlc") env =
      (.ok (), [.spawned "systemctl" ["--user", "restart", "vlc-loader.service"]]) ∧
    process_command (strCodes "pi_shutdown") env =
      (.ok (), [.spawned "sudo" ["shutdown", "-h", "now"]]) ∧
    process_command (strCodes "pi_reboot") env =
      (.ok (), [.spawned "sudo" ["shutdown", "-r", "now"]]) := by
  obtain ⟨c1, hc1⟩ := h1
  obtain ⟨c2, hc2⟩ := h2
  obtain ⟨c3, hc3⟩ := h3
  refine ⟨?_, ?_, ?_⟩
  · have e : process_command (strCodes "pi_restart_vlc") env =
        runLocal env "systemctl" ["--user", "restart", "vlc-loader.service"] := rfl
    rw [e]; unfold runLocal; rw [hc1]
  · have e : process_command (strCodes "pi_shutdown") env =
        runLocal env "sudo" ["shutdown", "-h", "now"] := rfl
    rw [e]; unfold runLocal; rw [hc2]
  · have e : process_command (strCodes "pi_reboot") env =
        runLocal env "sudo" ["shutdown", "-r", "now"] := rfl
    rw [e]; unfold runLocal; rw [hc3]

/-- Witness for the amended C4: with an environment whose processes start
(exit status 0 here, but any status gives the same result), `pi_reboot`
dispatches successfully with exactly one spawn effect. -/
theorem C4_local_action_witness :
    process_command (strCodes "pi_reboot") envOk =
      (.ok (), [.spawned "sudo" ["shutdown", "-r", "now"]]) :=
  (C4_local_action_failure_logged_only envOk ⟨0, rfl⟩ ⟨0, rfl⟩ ⟨0, rfl⟩).2.2

/-- C5: For every input and environment, dispatch takes exactly one of the
three paths — rejection (error result with no effect), local execution
(exactly one spawn effect), or backend forwarding (exactly one forwarding
effect) — and in particular no command is ever both executed locally and
forwarded to the backend. -/
theorem C5_exactly_one_path (data : List Nat) (env : Env) :
    (((process_command data env).2 = [] ∧ isRejection (process_command data env).1 = true) ∨
     (∃ p a, (process_command data env).2 = [Effect.spawned p a]) ∨
     (∃ tr, (process_command data env).2 = [Effect.forwarded tr])) ∧
    ¬ ((∃ p a, Effect.spawned p a ∈ (process_command data env).2) ∧
       (∃ tr, Effect.forwarded tr ∈ (process_command data env).2)) := by
  have hshape :
      ((process_command data env).2 = [] ∧ isRejection (process_command data env).1 = true) ∨
      (∃ p a, (process_command data env).2 = [Effect.spawned p a]) ∨
      (∃ tr, (process_command data env).2 = [Effect.forwarded tr]) := by
    simp only [process_command, runLocal]
    repeat' split
    all_goals
      first
      | exact Or.inl ⟨rfl, rfl⟩
      | exact Or.inr (Or.inl ⟨_, _, rfl⟩)
      | exact Or.inr (Or.inr ⟨_, rfl⟩)
  refine ⟨hshape, ?_⟩
  rintro ⟨⟨p, a, hmem1⟩, ⟨tr, hmem2⟩⟩
  rcases hshape with ⟨heq, _⟩ | ⟨p', a', heq⟩ | ⟨tr', heq⟩ <;>
    rw [heq] at hmem1 hmem2 <;> simp at hmem1 hmem2

/-- C6: For every forwarded command: when all 3 forwarding attempts fail, the
Forwarder surfaces the failure of the final attempt to its caller and the
trace records exactly attempts 1, 2, 3 (no 4th); and any single successful
exchange short-circuits the retry loop immediately with a successful result
(success on attempt k stops after attempts 1..k, for each k ≤ 3). -/
theorem C6_retry_exhaustion_and_shortcircuit (cmd : List Nat)
    (beh : Nat → BackendBehavior) :
    (exOk (forward_to_vlc cmd (beh 1)).1 = false →
     exOk (forward_to_vlc cmd (beh 2)).1 = false →
     exOk (forward_to_vlc cmd (beh 3)).1 = false →
       (forward_to_vlc_with_retry cmd beh).1 = (forward_to_vlc cmd (beh 3)).1 ∧
       attemptNums (forward_to_vlc_with_retry cmd beh).2 = [1, 2, 3]) ∧
    (exOk (forward_to_vlc cmd (beh 1)).1 = true →
       exOk (forward_to_vlc_with_retry cmd beh).1 = true ∧
       attemptNums (forward_to_vlc_with_retry cmd beh).2 = [1]) ∧
    (exOk (forward_to_vlc cmd (beh 1)).1 = false →
     exOk (forward_to_vlc cmd (beh 2)).1 = true →
       exOk (forward_to_vlc_with_retry cmd beh).1 = true ∧
       attemptNums (forward_to_vlc_with_retry cmd beh).2 = [1, 2]) ∧
    (exOk (forward_to_vlc cmd (beh 1)).1 = false →
     exOk (forward_to_vlc cmd (beh 2)).1 = false →
     exOk (forward_to_vlc cmd (beh 3)).1 = true →
       exOk (forward_to_vlc_with_retry cmd beh).1 = true ∧
       attemptNums (forward_to_vlc_with_retry cmd beh).2 = [1, 2, 3]) := by
  cases h1 : (forward_to_vlc cmd (beh 1)).1 <;>
  cases h2 : (forward_to_vlc cmd (beh 2)).1 <;>
  cases h3 : (forward_to_vlc cmd (beh 3)).1 <;>
    simp [forward_to_vlc_with_retry, retryLoop, attemptNums, exOk, h1, h2, h3]

/-- Witness for C6: a backend that refuses every connection makes the
Forwarder fail after exactly attempts 1, 2, 3. -/
theorem C6_retry_exhaustion_witness :
    (forward_to_vlc_with_retry (strCodes "play") (fun _ => downBackend)).1 =
      (forward_to_vlc (strCodes "play") downBackend).1 ∧
    attemptNums (forward_to_vlc_with_retry (strCodes "play")
      (fun _ => downBackend)).2 = [1, 2, 3] :=
  (C6_retry_exhaustion_and_shortcircuit (strCodes "play") (fun _ => downBackend)).1
    (by decide) (by decide) (by decide)

/-- C7: The retry delays are exactly 100 ms after a failed attempt 1 and
200 ms after a failed attempt 2, with no delay after the final attempt: when
the backend fails on attempts 1 and 2 and succeeds on attempt 3, the whole
trace is attempt 1, sleep 100, attempt 2, sleep 200, attempt 3, and the
result is success on exactly the third connection attempt. -/
theorem C7_retry_timing (cmd : List Nat) (beh : Nat → BackendBehavior)
    (e1 e2 : String)
    (h1 : (forward_to_vlc cmd (beh 1)).1 = .error e1)
    (h2 : (forward_to_vlc cmd (beh 2)).1 = .error e2)
    (h3 : (forward_to_vlc cmd (beh 3)).1 = .ok ()) :
    forward_to_vlc_with_retry cmd beh =
      (.ok (), [.attempt 1 (forward_to_vlc cmd (beh 1)).2, .sleep 100,
                .attempt 2 (forward_to_vlc cmd (beh 2)).2, .sleep 200,
                .attempt 3 (forward_to_vlc cmd (beh 3)).2]) := by
  simp [forward_to_vlc_with_retry, retryLoop, h1, h2, h3]

/-- Witness for C7: connection refused on attempts 1 and 2, normal service
on attempt 3. -/
theorem C7_retry_timing_witness :
    forward_to_vlc_with_retry (strCodes "play") behFlaky =
      (.ok (), [.attempt 1 [], .sleep 100, .attempt 2 [], .sleep 200,
                .attempt 3 [.connect, .readUntil 62 [62],
                            .write (strCodes "play"),
                            .readUntil 62 (strCodes "OK>")]]) :=
  C7_retry_timing (strCodes "play") behFlaky
    "Connection refused (os error 111)" "Connection refused (os error 111)"
    (by decide) (by decide) (by decide)

/-- C8: A single backend exchange on a brand-new connection performs exactly
the sequence connect, read until the prompt byte `>` (0x3E), write the
command bytes verbatim, read until the next `>`, and — whatever the content
of the prompt and response bytes, which are not interpreted — completes
successfully. -/
theorem C8_single_exchange (cmd : List Nat) (b : BackendBehavior)
    (prompt resp : List Nat)
    (hc : b.connect = .ok ()) (hp : b.promptRead = .ok prompt)
    (hw : b.writeRes = .ok ()) (hr : b.responseRead = .ok resp) :
    forward_to_vlc cmd b =
      (.ok (), [.connect, .readUntil 62 prompt, .write cmd,
                .readUntil 62 resp]) := by
  unfold forward_to_vlc
  rw [hc, hp, hw, hr]

/-- Witness for C8: the normally-behaving backend. -/
theorem C8_single_exchange_witness :
    forward_to_vlc (strCodes "play") okBackend =
      (.ok (), [.connect, .readUntil 62 [62], .write (strCodes "play"),
                .readUntil 62 (strCodes "OK>")]) :=
  C8_single_exchange (strCodes "play") okBackend [62] (strCodes "OK>")
    rfl rfl rfl rfl

/-- C1, evaluated at the failing input: a command whose dispatch fails does
NOT leave the originating session able to move on.  The `?` on
`process_command` propagates the error: the UDP listener's receive loop ends
with the first datagram's Unauthorized error and the following `play`
datagram is never dispatched (no effect recorded), and the TCP connection's
read loop likewise ends at the first failing line, never reaching the next
line. -/
theorem C1_session_does_not_continue :
    run_udp_server [strCodes "pi_format_disk", strCodes "play"] envOk =
      (.error (.unauthorized (strCodes "pi_format_disk")), []) ∧
    handle_tcp_connection
        (strCodes "pi_format_disk" ++ [10] ++ strCodes "play" ++ [10]) envOk =
      (.error (.dispatch (.unauthorized (strCodes "pi_format_disk"))), []) := by
  exact ⟨by decide, by decide⟩

/-- A line of non-newline bytes followed by the terminator is read as one
`read_line` unit that keeps its terminator. -/
theorem splitLinesAux_append_newline (c : List Nat) :
    ∀ acc, (10 : Nat) ∉ c →
      splitLinesAux (c ++ [10]) acc = [acc.reverse ++ (c ++ [10])] := by
  induction c with
  | nil => intro acc _; simp [splitLinesAux]
  | cons b c ih =>
    intro acc h
    rw [List.mem_cons, not_or] at h
    simp only [List.cons_append, splitLinesAux, List.append_eq]
    rw [if_neg (fun hb => h.1 hb.symm)]
    rw [ih (b :: acc) h.2]
    simp

/-- A single newline-terminated line is one unit, newline included. -/
theorem splitLines_single_line (c : List Nat) (h : (10 : Nat) ∉ c) :
    splitLines (c ++ [10]) = [c ++ [10]] := by
  unfold splitLines
  rw [splitLinesAux_append_newline c [] h]
  simp

/-- C9: For every line received on the stream transport, the bytes handed to
dispatch include the trailing line terminator: a 128-byte command plus its
newline is 129 bytes and is rejected as oversized; and a pass-through
command forwarded to the backend carries the newline byte with it (the
backend write is the full line `play\n`). -/
theorem C9_newline_included (c : List Nat) (env : Env)
    (hlen : c.length = 128) (hnl : (10 : Nat) ∉ c)
    (hutf : (utf8Decode (c ++ [10])).isSome = true) :
    handle_tcp_connection (c ++ [10]) env =
      (.error (.dispatch (.sizeExceeded 129)), []) ∧
    handle_tcp_connection (strCodes "play" ++ [10]) envOk =
      (.ok (), [.forwarded [.attempt 1 [.connect, .readUntil 62 [62],
        .write (strCodes "play" ++ [10]), .readUntil 62 (strCodes "OK>")]]]) := by
  constructor
  · unfold handle_tcp_connection
    rw [splitLines_single_line c hnl]
    obtain ⟨v, hv⟩ := Option.isSome_iff_exists.mp hutf
    unfold handle_tcp_lines tcp_dispatch_line
    rw [process_command_oversized _ env
      (by simp [List.length_append, hlen, MAX_COMMAND_SIZE])]
    simp [hv, List.length_append, hlen]
  · decide

/-- Witness for C9: 128 `a` bytes plus a newline are rejected as a 129-byte
oversized command. -/
theorem C9_newline_witness :
    handle_tcp_connection (List.replicate 128 97 ++ [10]) envOk =
      (.error (.dispatch (.sizeExceeded 129)), []) :=
  (C9_newline_included (List.replicate 128 97) envOk
    (by decide) (by decide) (by decide)).1

/-- C10: Both transports feed the same dispatch function: for every byte
sequence that can arrive on either transport (at most the 1024-byte datagram
buffer, valid UTF-8 so the stream's `read_line` accepts it), the per-unit
outcome is exactly `process_command` on those bytes — identical for a
datagram and for a stream line up to the stream's error wrapper. -/
theorem C10_transport_equivalence (d : List Nat) (env : Env)
    (hlen : d.length ≤ 1024) (hutf : (utf8Decode d).isSome = true) :
    udp_dispatch_datagram d env = process_command d env ∧
    tcp_dispatch_line d env =
      (match process_command d env with
       | (.ok _, effs) => (.ok (), effs)
       | (.error e, effs) => (.error (.dispatch e), effs)) := by
  constructor
  · unfold udp_dispatch_datagram
    rw [List.take_of_length_le hlen]
  · unfold tcp_dispatch_line
    obtain ⟨v, hv⟩ := Option.isSome_iff_exists.mp hutf
    simp [hv]

/-- Witness for C10 at the pass-through command `play` with an unreachable
backend: both transports produce the identical dispatch outcome. -/
theorem C10_transport_equivalence_witness :
    udp_dispatch_datagram (strCodes "play") envDown =
      process_command (strCodes "play") envDown :=
  (C10_transport_equivalence (strCodes "play") envDown (by decide) (by decide)).1
